import Mathlib

/-!
Shallow embedding of the Namada ledger shell
(`apps/src/lib/node/ledger/shell/mod.rs`): error codes, mempool
validation, replay-protection checks, Byzantine-evidence slashing,
the Ethereum event receiver and the oracle configuration push.

External collaborators (storage reads, signature verification, content
hashing, vote-extension validation) are modelled as function-valued
fields of explicit environment records, so every definition stays
executable while the shell control flow is translated from the source
line by line.
-/

namespace NamadaShell

/-! ### Error codes (`ErrorCodes` enum, mod.rs lines 139-174) -/

/-- The different error codes that the ledger may send back to a client,
with the same variants as the Rust `ErrorCodes` enum. -/
inductive ErrorCodes where
  | Ok
  | InvalidDecryptedChainId
  | ExpiredDecryptedTx
  | WasmRuntimeError
  | InvalidTx
  | InvalidSig
  | InvalidOrder
  | ExtraTxs
  | Undecryptable
  | AllocationError
  | ReplayTx
  | InvalidChainId
  | ExpiredTx
  | InvalidVoteExtension
  deriving DecidableEq, Repr

/-- Numeric discriminants of the Rust enum (`Ok = 0`, ..,
`InvalidVoteExtension = 13`); `u32::from` uses these values. -/
def ErrorCodes.toNat : ErrorCodes → Nat
  | .Ok => 0
  | .InvalidDecryptedChainId => 1
  | .ExpiredDecryptedTx => 2
  | .WasmRuntimeError => 3
  | .InvalidTx => 4
  | .InvalidSig => 5
  | .InvalidOrder => 6
  | .ExtraTxs => 7
  | .Undecryptable => 8
  | .AllocationError => 9
  | .ReplayTx => 10
  | .InvalidChainId => 11
  | .ExpiredTx => 12
  | .InvalidVoteExtension => 13

/-- `ErrorCodes::is_recoverable`: protocol level errors that can be
recovered from at the finalize block stage (mod.rs lines 160-173). -/
def ErrorCodes.is_recoverable : ErrorCodes → Bool
  | .Ok | .InvalidDecryptedChainId | .ExpiredDecryptedTx
  | .WasmRuntimeError => true
  | .InvalidTx | .InvalidSig | .InvalidOrder | .ExtraTxs
  | .Undecryptable | .AllocationError | .ReplayTx | .InvalidChainId
  | .ExpiredTx | .InvalidVoteExtension => false

/-! ### Transactions

Chain ids, addresses, public keys, token identifiers and content
hashes are abstracted to `Nat`; timestamps to `Int`.  A transaction is
represented by its header (chain id, optional expiration, tx type),
which is the only part the shell code inspects directly; everything
else (signatures, payload bytes) is consulted only through external
calls, modelled as environment functions.
-/

/-- The protocol tx variants dispatched on in `mempool_validate`
(`ProtocolTxType`); `Other` stands for every remaining variant, which
falls into the catch-all arm. -/
inductive ProtocolTxKind where
  | EthEventsVext
  | BridgePoolVext
  | ValSetUpdateVext
  | Other
  deriving DecidableEq, Repr

/-- The fields of `WrapperTx` consulted by `mempool_validate`:
the fee payer public key, the fee token, and the optional anti-spam
proof-of-work solution. -/
structure WrapperData where
  pk : Nat
  fee_token : Nat
  pow_solution : Option Nat
  deriving DecidableEq, Repr

/-- `TxType`: protocol, fee-bearing wrapper, raw, or decrypted. -/
inductive TxKind where
  | Protocol (p : ProtocolTxKind)
  | Wrapper (w : WrapperData)
  | Raw
  | Decrypted
  deriving DecidableEq, Repr

/-- A transaction header: chain id, optional expiration timestamp and
tx type (the fields of `proto::Tx`'s header read by the shell). -/
structure Header where
  chain_id : Nat
  expiration : Option Int
  tx_type : TxKind
  deriving DecidableEq, Repr

/-- A decoded transaction, reduced to its header. -/
structure Tx where
  header : Header
  deriving DecidableEq, Repr

/-- `Tx::update_header`: replace the header's tx type (used to compute
the inner hash of a wrapper with a `Raw` header substituted). -/
def Tx.update_header (tx : Tx) (k : TxKind) : Tx :=
  { tx with header := { tx.header with tx_type := k } }

/-- `MempoolTxType`: a new mempool submission or a recheck of a
previously accepted one. -/
inductive MempoolTxType where
  | NewTransaction
  | RecheckTransaction
  deriving DecidableEq, Repr

/-- The fields of `response::CheckTx` set by `mempool_validate`. -/
structure CheckTxResponse where
  code : Nat
  log : String
  priority : Int
  deriving DecidableEq, Repr

/-- The environment of external calls made by `mempool_validate`:
the node chain id, the last committed block timestamp
(`get_block_timestamp(None)`), header hashing, header signature
validation (`Tx::validate_header`), committed replay-protection
storage membership (`has_key` on `get_tx_hash_key`), vote-extension
validation, and the balance / fee / proof-of-work reads of the
wrapper branch. -/
structure MempoolEnv where
  chain_id : Nat
  last_block_timestamp : Int
  hash_header : Header → Nat
  validate_header : Tx → Bool
  replay_has_key : Nat → Bool
  valid_eth_events_vext : Tx → Bool
  valid_bp_roots_vext : Tx → Bool
  valid_valset_upd_vext : Tx → Bool
  masp_pk : Nat
  masp_address : Nat
  pk_address : Nat → Nat
  balance_of : Nat → Nat → Nat
  has_valid_pow : WrapperData → Bool
  wrapper_tx_fees : Nat

def VALID_MSG : String := "Mempool validation passed"

def INVALID_MSG : String := "Mempool validation failed"

/-- Log text of the inner-hash replay rejection in `mempool_validate`,
naming the colliding hash. -/
def innerReplayLog (h : Nat) : String :=
  INVALID_MSG ++ ": Inner transaction hash " ++ toString h ++
    " already in storage, replay attempt"

/-- Log text of the wrapper-hash replay rejection in
`mempool_validate`, naming the colliding hash. -/
def wrapperReplayLog (h : Nat) : String :=
  INVALID_MSG ++ ": Wrapper transaction hash " ++ toString h ++
    " already in storage, replay attempt"

/-- The dispatch on the tx type in `mempool_validate` (mod.rs lines
1066-1234), reached after decoding, chain id, expiration and header
signature checks all pass. -/
def mempool_dispatch (env : MempoolEnv) (tx : Tx) : CheckTxResponse :=
  match tx.header.tx_type with
  | .Protocol p =>
    match p with
    | .EthEventsVext =>
      if env.valid_eth_events_vext tx then
        { code := 0, log := VALID_MSG, priority := 0 }
      else
        { code := ErrorCodes.InvalidVoteExtension.toNat,
          log := INVALID_MSG ++
            ": Invalid Ethereum events vote extension",
          priority := 0 }
    | .BridgePoolVext =>
      if env.valid_bp_roots_vext tx then
        { code := 0, log := VALID_MSG, priority := 0 }
      else
        { code := ErrorCodes.InvalidVoteExtension.toNat,
          log := INVALID_MSG ++
            ": Invalid Brige pool roots vote extension",
          priority := 0 }
    | .ValSetUpdateVext =>
      if env.valid_valset_upd_vext tx then
        { code := 0, log := VALID_MSG, priority := 9223372036854775807 }
      else
        { code := ErrorCodes.InvalidVoteExtension.toNat,
          log := INVALID_MSG ++
            ": Invalid validator set update vote extension",
          priority := 0 }
    | .Other =>
      { code := ErrorCodes.InvalidTx.toNat,
        log := INVALID_MSG ++
          ": The given protocol tx cannot be added to the mempool",
        priority := 0 }
  | .Wrapper w =>
    let inner_tx := tx.update_header .Raw
    let inner_tx_hash := env.hash_header inner_tx.header
    if env.replay_has_key inner_tx_hash then
      { code := ErrorCodes.ReplayTx.toNat,
        log := innerReplayLog inner_tx_hash, priority := 0 }
    else
      let wrapper_hash := env.hash_header tx.header
      if env.replay_has_key wrapper_hash then
        { code := ErrorCodes.ReplayTx.toNat,
          log := wrapperReplayLog wrapper_hash, priority := 0 }
      else
        let fee_payer :=
          if w.pk ≠ env.masp_pk then env.pk_address w.pk
          else env.masp_address
        let balance := env.balance_of w.fee_token fee_payer
        if env.has_valid_pow w = false ∧ env.wrapper_tx_fees > balance
        then
          { code := ErrorCodes.InvalidTx.toNat,
            log := INVALID_MSG ++
              ": The given address does not have a sufficient balance to pay fee",
            priority := 0 }
        else { code := 0, log := "", priority := 0 }
  | .Raw =>
    { code := ErrorCodes.InvalidTx.toNat,
      log := INVALID_MSG ++
        ": Raw transactions cannot be accepted into the mempool",
      priority := 0 }
  | .Decrypted =>
    { code := ErrorCodes.InvalidTx.toNat,
      log := INVALID_MSG ++ ": Decrypted txs cannot be sent by clients",
      priority := 0 }

/-- The trailing step of `mempool_validate` (mod.rs lines 1236-1238):
when the response code is still `Ok`, set the log to the success
message.  It applies to the paths that fall through the dispatch
rather than returning early. -/
def finalize_log (r : CheckTxResponse) : CheckTxResponse :=
  if r.code = ErrorCodes.Ok.toNat then { r with log := VALID_MSG } else r

/-- `Shell::mempool_validate` (mod.rs lines 1006-1240).  `decoded` is
the result of `Tx::try_from(tx_bytes)`; the `MempoolTxType` argument
is the Rust `r#_type` parameter, which the body never reads. -/
def mempool_validate (env : MempoolEnv) (decoded : Option Tx)
    (kind : MempoolTxType) : CheckTxResponse :=
  match decoded with
  | none =>
    { code := ErrorCodes.InvalidTx.toNat,
      log := INVALID_MSG ++ ": tx decoding failed", priority := 0 }
  | some tx =>
    if tx.header.chain_id ≠ env.chain_id then
      { code := ErrorCodes.InvalidChainId.toNat,
        log := INVALID_MSG ++ ": Tx carries a wrong chain id: expected "
          ++ toString env.chain_id ++ ", found "
          ++ toString tx.header.chain_id,
        priority := 0 }
    else
      let expired : Option CheckTxResponse :=
        match tx.header.expiration with
        | some exp =>
          if env.last_block_timestamp > exp then
            some { code := ErrorCodes.ExpiredTx.toNat,
                   log := INVALID_MSG ++ ": Tx expired at "
                     ++ toString exp ++ ", last committed block time: "
                     ++ toString env.last_block_timestamp,
                   priority := 0 }
          else none
        | none => none
      match expired with
      | some r => r
      | none =>
        if env.validate_header tx = false then
          { code := ErrorCodes.InvalidSig.toNat,
            log := INVALID_MSG ++ ": invalid header signature",
            priority := 0 }
        else finalize_log (mempool_dispatch env tx)

/-! ### Replay protection during block construction
(`Shell::replay_protection_checks`, mod.rs lines 859-904) -/

/-- A `TempWlStorage`: a temporary overlay of written hash keys on top
of committed storage.  Only the replay-protection keyspace is
relevant here, so keys are the transaction content hashes themselves
(`get_tx_hash_key` is injective in the hash). -/
structure TempWlStorage where
  committed : Nat → Bool
  overlay : List Nat

/-- `has_key` on the temporary overlay: present if written in the
overlay or present in the underlying committed storage. -/
def TempWlStorage.has_key (st : TempWlStorage) (h : Nat) : Bool :=
  st.overlay.contains h || st.committed h

/-- `write` of a hash key into the temporary overlay. -/
def TempWlStorage.write (st : TempWlStorage) (h : Nat) : TempWlStorage :=
  { st with overlay := h :: st.overlay }

/-- Text of `Error::ReplayAttempt` for an inner-hash collision. -/
def replayAttemptInner (h : Nat) : String :=
  "Inner transaction hash " ++ toString h ++ " already in storage"

/-- Text of `Error::ReplayAttempt` for a wrapper-hash collision. -/
def replayAttemptWrapper (h : Nat) : String :=
  "Wrapper transaction hash " ++ toString h ++ " already in storage"

/-- `Shell::replay_protection_checks`: check the inner (raw-header)
hash, write it, then check the wrapper hash and write it.  `wrapper`
is the `&Tx` argument and `tx_from_bytes` the transaction re-decoded
from `tx_bytes`; the result pairs the Rust `Result<()>` with the final
state of the mutated temporary overlay. -/
def replay_protection_checks (hash_header : Header → Nat)
    (wrapper : Tx) (tx_from_bytes : Tx) (st : TempWlStorage) :
    Except String Unit × TempWlStorage :=
  let inner_tx_hash := hash_header (wrapper.update_header .Raw).header
  if st.has_key inner_tx_hash then
    (Except.error (replayAttemptInner inner_tx_hash), st)
  else
    let st1 := st.write inner_tx_hash
    let wrapper_hash := hash_header tx_from_bytes.header
    if st1.has_key wrapper_hash then
      (Except.error (replayAttemptWrapper wrapper_hash), st1)
    else
      (Except.ok (), st1.write wrapper_hash)

/-! ### Byzantine evidence slashing
(`Shell::record_slashes_from_evidence`, mod.rs lines 645-766) -/

/-- The two recognised slash types (`pos::types::SlashType`). -/
inductive SlashType where
  | DuplicateVote
  | LightClientAttack
  deriving DecidableEq, Repr

/-- A Byzantine-evidence item (`Misbehavior`): reported height (an
`i64`), fault-type code (an `i32`), and the optional consensus-layer
raw identity of the misbehaving validator (abstracted to `Nat`). -/
structure Evidence where
  height : Int
  type_code : Int
  validator : Option Nat
  deriving DecidableEq, Repr

/-- The protobuf `MisbehaviorType` variants. -/
inductive EvidenceType where
  | Unknown
  | DuplicateVote
  | LightClientAttack
  deriving DecidableEq, Repr

/-- `MisbehaviorType::from_i32`: 0 = Unknown, 1 = DuplicateVote,
2 = LightClientAttack, anything else unrecognised. -/
def EvidenceType.from_i32 (i : Int) : Option EvidenceType :=
  if i = 0 then some .Unknown
  else if i = 1 then some .DuplicateVote
  else if i = 2 then some .LightClientAttack
  else none

/-- The proof-of-stake parameters consulted for the slashing window
(`slash_processing_epoch_offset()` is read as a single value). -/
structure PosParams where
  slash_processing_epoch_offset : Nat
  cubic_slashing_window_length : Nat
  deriving DecidableEq, Repr

/-- The arguments of one `slash(...)` call made while processing
evidence. -/
structure SlashRecord where
  validator : Nat
  current_epoch : Nat
  evidence_epoch : Nat
  evidence_height : Nat
  slash_type : SlashType
  deriving DecidableEq, Repr

/-- The storage reads made by `record_slashes_from_evidence`: the PoS
parameters, the height-to-epoch index (`pred_epochs.get_epoch`) and
validator resolution from a raw hash
(`find_validator_by_raw_hash`). -/
structure SlashEnv where
  pos_params : PosParams
  pred_epochs : Nat → Option Nat
  find_validator_by_raw_hash : Nat → Option Nat

/-- The parts of the shell state touched by
`record_slashes_from_evidence`: the pending evidence list, the current
epoch (`storage.block.epoch`), and the trace of `slash(...)` calls
made so far. -/
structure ShellSlashState where
  byzantine_validators : List Evidence
  current_epoch : Nat
  slashes : List SlashRecord
  deriving DecidableEq, Repr

/-- Processing of a single evidence item inside the loop of
`record_slashes_from_evidence`: returns the `slash(...)` call made for
it, or `none` when the item is discarded (`continue`) by one of the
checks, in source order: negative height (`u64::try_from` failure),
unresolvable epoch, already-closed slashing window, unrecognised or
`Unknown` fault type, absent or unresolvable validator. -/
def process_evidence (env : SlashEnv) (current_epoch : Nat)
    (ev : Evidence) : Option SlashRecord :=
  if ev.height < 0 then none
  else
    let evidence_height := ev.height.toNat
    match env.pred_epochs evidence_height with
    | none => none
    | some evidence_epoch =>
      if evidence_epoch + env.pos_params.slash_processing_epoch_offset
           - env.pos_params.cubic_slashing_window_length
           ≤ current_epoch then none
      else
        match EvidenceType.from_i32 ev.type_code with
        | none => none
        | some EvidenceType.Unknown => none
        | some et =>
          let slash_type : SlashType :=
            match et with
            | EvidenceType.LightClientAttack => SlashType.LightClientAttack
            | _ => SlashType.DuplicateVote
          match ev.validator with
          | none => none
          | some validator_raw_hash =>
            match env.find_validator_by_raw_hash validator_raw_hash with
            | none => none
            | some validator =>
              some { validator, current_epoch, evidence_epoch,
                     evidence_height, slash_type }

/-- `Shell::record_slashes_from_evidence`: if the pending list is
nonempty, take it (leaving it empty), and process each item once in
order, appending the resulting `slash(...)` calls.  The function
returns normally in every case. -/
def record_slashes_from_evidence (env : SlashEnv)
    (st : ShellSlashState) : ShellSlashState :=
  if st.byzantine_validators.isEmpty then st
  else
    { st with
      byzantine_validators := [],
      slashes := st.slashes ++
        st.byzantine_validators.filterMap
          (process_evidence env st.current_epoch) }

/-! ### The Ethereum event receiver
(`EthereumReceiver`, mod.rs lines 234-276) -/

/-- Insertion into a strictly sorted list, the way `BTreeSet::insert`
extends its ordered contents: events are identified by their `Ord`
identity, abstracted to `Nat`. -/
def btree_insert (x : Nat) : List Nat → List Nat
  | [] => [x]
  | y :: ys =>
    if x < y then x :: y :: ys
    else if x = y then y :: ys
    else y :: btree_insert x ys

/-- `EthereumReceiver`: the bounded channel from the oracle (a list of
events in arrival order) and the `BTreeSet` queue (its sorted
contents). -/
structure EthereumReceiver where
  channel : List Nat
  queue : List Nat
  deriving DecidableEq, Repr

/-- `EthereumReceiver::new`: empty queue over a channel. -/
def EthereumReceiver.new (ch : List Nat) : EthereumReceiver :=
  { channel := ch, queue := [] }

/-- `EthereumReceiver::fill_queue`: drain the channel in arrival order,
inserting each event into the sorted queue (duplicates are absorbed by
the set insert). -/
def EthereumReceiver.fill_queue (r : EthereumReceiver) :
    EthereumReceiver :=
  { channel := [],
    queue := r.channel.foldl (fun q e => btree_insert e q) r.queue }

/-- `EthereumReceiver::get_events`: a copy of the queue contents in
set order. -/
def EthereumReceiver.get_events (r : EthereumReceiver) : List Nat :=
  r.queue

/-- `EthereumReceiver::remove_event`: remove the event from the queue
if present. -/
def EthereumReceiver.remove_event (r : EthereumReceiver) (e : Nat) :
    EthereumReceiver :=
  { r with queue := r.queue.erase e }

/-- The events interacting with a receiver: delivery of an event on
the channel by the oracle, a `fill_queue` call, a `remove_event`
call. -/
inductive ReceiverOp where
  | deliver (e : Nat)
  | fill
  | remove (e : Nat)
  deriving DecidableEq, Repr

/-- One step of the receiver under an operation. -/
def apply_receiver_op (r : EthereumReceiver) : ReceiverOp → EthereumReceiver
  | .deliver e => { r with channel := r.channel ++ [e] }
  | .fill => r.fill_queue
  | .remove e => r.remove_event e

/-- A receiver after running a sequence of operations from a fresh
`EthereumReceiver::new` with an empty channel. -/
def run_receiver (ops : List ReceiverOp) : EthereumReceiver :=
  ops.foldl apply_receiver_op (EthereumReceiver.new [])

/-! ### Oracle configuration push
(`Shell::update_eth_oracle`, mod.rs lines 914-1001) -/

/-- The bridge contract addresses of `EthereumBridgeConfig`. -/
structure BridgeContracts where
  bridge : Nat
  governance : Nat
  deriving DecidableEq, Repr

/-- `EthereumBridgeConfig` as read from storage. -/
structure EthereumBridgeConfig where
  min_confirmations : Nat
  contracts : BridgeContracts
  deriving DecidableEq, Repr

/-- The oracle `Config` pushed over the control channel. -/
structure OracleConfig where
  min_confirmations : Nat
  bridge_contract : Nat
  governance_contract : Nat
  start_block : Nat
  deriving DecidableEq, Repr

/-- State of the bounded oracle control channel as seen by
`try_send`. -/
inductive ChannelState where
  | Ready
  | Full
  | Closed
  deriving DecidableEq, Repr

/-- Everything `update_eth_oracle` consults: whether the shell is a
validator with oracle channels, the committed-storage reads (active
key presence, bridge activity, bridge config, configured start
height), the in-memory `ethereum_height`, and the channel state. -/
structure OracleEnv where
  has_oracle_channel : Bool
  has_active_key : Bool
  bridge_active : Bool
  bridge_config : Option EthereumBridgeConfig
  ethereum_height : Option Nat
  eth_start_height_storage : Option Nat
  control_channel : ChannelState
  deriving DecidableEq, Repr

/-- Outcome of one `update_eth_oracle` call: an early return without
any push, a successful push of a configuration, or a process abort
(`fatal` covers both Rust panics and failed `expect`s). -/
inductive OracleUpdateOutcome where
  | no_oracle
  | storage_uninitialized
  | bridge_disabled
  | config_missing
  | fatal (msg : String)
  | sent (cfg : OracleConfig)
  deriving DecidableEq, Repr

/-- `Shell::update_eth_oracle`: do nothing without oracle channels;
return early (configuration not pushed) when the bridge-activation
key is absent, the bridge is disabled, or the bridge config is
missing; otherwise resolve the start block (preferring the oracle's
last processed height) and `try_send` the configuration, aborting the
process when the channel is full or closed. -/
def update_eth_oracle (env : OracleEnv) : OracleUpdateOutcome :=
  if env.has_oracle_channel = false then .no_oracle
  else if env.has_active_key = false then .storage_uninitialized
  else if env.bridge_active = false then .bridge_disabled
  else
    match env.bridge_config with
    | none => .config_missing
    | some config =>
      let start_block :=
        match env.ethereum_height with
        | some h => some h
        | none => env.eth_start_height_storage
      match start_block with
      | none => .fatal "The Ethereum start height should be in storage"
      | some start_block =>
        let cfg : OracleConfig :=
          { min_confirmations := config.min_confirmations,
            bridge_contract := config.contracts.bridge,
            governance_contract := config.contracts.governance,
            start_block }
        match env.control_channel with
        | .Full =>
          .fatal "The Ethereum oracle communication channel is full!"
        | .Closed =>
          .fatal "The Ethereum oracle can no longer be communicated with"
        | .Ready => .sent cfg

/-! ### Concrete instances used to evaluate the definitions -/

/-- A concrete mempool environment: chain id 1, last block time 100,
header hashing that sends raw headers to 7 and all others to 5, and a
committed replay record for hash 7. -/
def envW : MempoolEnv :=
  { chain_id := 1,
    last_block_timestamp := 100,
    hash_header := fun h =>
      match h.tx_type with
      | TxKind.Raw => 7
      | _ => 5,
    validate_header := fun _ => true,
    replay_has_key := fun n => n == 7,
    valid_eth_events_vext := fun _ => true,
    valid_bp_roots_vext := fun _ => true,
    valid_valset_upd_vext := fun _ => true,
    masp_pk := 99,
    masp_address := 98,
    pk_address := fun n => n,
    balance_of := fun _ _ => 1000,
    has_valid_pow := fun _ => false,
    wrapper_tx_fees := 10 }

/-- A concrete wrapper transaction on chain 1 with no expiration. -/
def txW : Tx :=
  { header :=
    { chain_id := 1, expiration := none,
      tx_type := TxKind.Wrapper
        { pk := 1, fee_token := 0, pow_solution := none } } }

/-- A concrete transaction carrying a foreign chain id. -/
def txForeign : Tx :=
  { header := { chain_id := 2, expiration := none, tx_type := TxKind.Raw } }

/-- A concrete transaction on chain 1 expiring at time 50. -/
def txExpired : Tx :=
  { header :=
    { chain_id := 1, expiration := some 50, tx_type := TxKind.Raw } }

/-- A concrete header hash function for the replay-protection guard:
raw headers hash to 1, all others to 2. -/
def hashC : Header → Nat := fun h =>
  match h.tx_type with
  | TxKind.Raw => 1
  | _ => 2

/-- A temporary overlay whose committed storage already holds the
wrapper hash 2 (and nothing else), with an empty write log. -/
def stC : TempWlStorage :=
  { committed := fun n => n == 2, overlay := [] }

/-- A temporary overlay over empty committed storage. -/
def stEmptyC : TempWlStorage :=
  { committed := fun _ => false, overlay := [] }

/-- A concrete slashing environment: offset 3, window 1, only height
10 resolves (to epoch 4), and no validator ever resolves. -/
def slashEnvW : SlashEnv :=
  { pos_params :=
      { slash_processing_epoch_offset := 3,
        cubic_slashing_window_length := 1 },
    pred_epochs := fun h => if h = 10 then some 4 else none,
    find_validator_by_raw_hash := fun _ => none }

/-- A concrete evidence item: height 10, duplicate-vote code 1, raw
validator identity 5. -/
def evW : Evidence := { height := 10, type_code := 1, validator := some 5 }

/-- A concrete interleaving of deliveries, fills and removals. -/
def opsW : List ReceiverOp :=
  [ReceiverOp.deliver 2, ReceiverOp.deliver 5, ReceiverOp.fill,
   ReceiverOp.deliver 1, ReceiverOp.remove 5, ReceiverOp.fill]

/-- A concrete oracle environment whose control channel is full, with
the bridge active and configured. -/
def oracleEnvFullW : OracleEnv :=
  { has_oracle_channel := true, has_active_key := true,
    bridge_active := true,
    bridge_config := some
      { min_confirmations := 3,
        contracts := { bridge := 11, governance := 12 } },
    ethereum_height := some 77, eth_start_height_storage := none,
    control_channel := ChannelState.Full }

/-- A concrete oracle environment whose bridge-activation key is
absent from storage. -/
def oracleEnvNoKeyW : OracleEnv :=
  { has_oracle_channel := true, has_active_key := false,
    bridge_active := true, bridge_config := none,
    ethereum_height := none, eth_start_height_storage := none,
    control_channel := ChannelState.Ready }

end NamadaShell

/-- Claim C3: the numeric values of the `ErrorCodes` enum are exactly
0=Ok, 1=InvalidDecryptedChainId, 2=ExpiredDecryptedTx,
3=WasmRuntimeError, 4=InvalidTx, 5=InvalidSig, 6=InvalidOrder,
7=ExtraTxs, 8=Undecryptable, 9=AllocationError, 10=ReplayTx,
11=InvalidChainId, 12=ExpiredTx, 13=InvalidVoteExtension, and
`is_recoverable` holds exactly for the codes with numeric value at
most 3. -/
theorem NamadaShell.errorCodes_values_and_recoverable :
    (NamadaShell.ErrorCodes.Ok.toNat = 0 ∧
     NamadaShell.ErrorCodes.InvalidDecryptedChainId.toNat = 1 ∧
     NamadaShell.ErrorCodes.ExpiredDecryptedTx.toNat = 2 ∧
     NamadaShell.ErrorCodes.WasmRuntimeError.toNat = 3 ∧
     NamadaShell.ErrorCodes.InvalidTx.toNat = 4 ∧
     NamadaShell.ErrorCodes.InvalidSig.toNat = 5 ∧
     NamadaShell.ErrorCodes.InvalidOrder.toNat = 6 ∧
     NamadaShell.ErrorCodes.ExtraTxs.toNat = 7 ∧
     NamadaShell.ErrorCodes.Undecryptable.toNat = 8 ∧
     NamadaShell.ErrorCodes.AllocationError.toNat = 9 ∧
     NamadaShell.ErrorCodes.ReplayTx.toNat = 10 ∧
     NamadaShell.ErrorCodes.InvalidChainId.toNat = 11 ∧
     NamadaShell.ErrorCodes.ExpiredTx.toNat = 12 ∧
     NamadaShell.ErrorCodes.InvalidVoteExtension.toNat = 13) ∧
    ∀ c : NamadaShell.ErrorCodes,
      c.is_recoverable = true ↔ c.toNat ≤ 3 := by
  constructor
  · repeat (first | constructor | rfl)
  · intro c
    cases c <;> simp [NamadaShell.ErrorCodes.is_recoverable,
      NamadaShell.ErrorCodes.toNat]

namespace NamadaShell

/-! ### Mempool validation theorems -/

/-- Helper: once the chain id matches, the transaction is unexpired
and the header signature validates, `mempool_validate` reduces to the
tx-type dispatch followed by the success-log rewrite. -/
theorem mempool_validate_to_dispatch (env : MempoolEnv) (tx : Tx)
    (k : MempoolTxType)
    (hchain : tx.header.chain_id = env.chain_id)
    (hexp : ∀ e : Int, tx.header.expiration = some e →
      ¬ env.last_block_timestamp > e)
    (hsig : env.validate_header tx = true) :
    mempool_validate env (some tx) k =
      finalize_log (mempool_dispatch env tx) := by
  unfold mempool_validate
  cases hex : tx.header.expiration with
  | none => simp [hchain, hex, hsig]
  | some e => simp [hchain, hex, hsig, hexp e hex]

/-- Claim C10: `mempool_validate` never reads its `MempoolTxType`
argument, so the whole response (code, log and priority) is the same
for a new submission and for a recheck. -/
theorem mempool_validate_kind_irrelevant (env : MempoolEnv)
    (decoded : Option Tx) (k1 k2 : MempoolTxType) :
    mempool_validate env decoded k1 = mempool_validate env decoded k2 :=
  rfl

/-- Claim C4: a decoded transaction whose header chain id differs from
the node's chain id is rejected with `InvalidChainId`, for every
environment (hence for any signature validity, expiration or replay
status) and for both mempool kinds. -/
theorem mempool_rejects_foreign_chain_id (env : MempoolEnv) (tx : Tx)
    (k : MempoolTxType) (h : tx.header.chain_id ≠ env.chain_id) :
    (mempool_validate env (some tx) k).code =
      ErrorCodes.InvalidChainId.toNat := by
  simp [mempool_validate, h]

/-- Witness for C4: the foreign-chain transaction is rejected with
code 11 under the concrete environment. -/
theorem mempool_rejects_foreign_chain_id_witness :
    txForeign.header.chain_id ≠ envW.chain_id ∧
    (mempool_validate envW (some txForeign)
        MempoolTxType.NewTransaction).code =
      ErrorCodes.InvalidChainId.toNat :=
  ⟨by decide,
   mempool_rejects_foreign_chain_id envW txForeign
     MempoolTxType.NewTransaction (by decide)⟩

end NamadaShell

namespace NamadaShell

/-- Helper: the success-log rewrite never changes the response code. -/
theorem finalize_log_code (r : CheckTxResponse) :
    (finalize_log r).code = r.code := by
  unfold finalize_log
  split <;> simp_all

/-- Helper: no arm of the tx-type dispatch produces the `ExpiredTx`
code. -/
theorem mempool_dispatch_code_ne_expired (env : MempoolEnv) (tx : Tx) :
    (mempool_dispatch env tx).code ≠ ErrorCodes.ExpiredTx.toNat := by
  unfold mempool_dispatch
  cases htt : tx.header.tx_type with
  | Protocol p =>
    cases p <;> dsimp only <;> (try split_ifs) <;>
      simp [ErrorCodes.toNat]
  | Wrapper w =>
    dsimp only
    split_ifs <;> simp [ErrorCodes.toNat]
  | Raw => simp [ErrorCodes.toNat]
  | Decrypted => simp [ErrorCodes.toNat]

/-- Claim C5: a decoded transaction on the right chain whose
expiration timestamp is strictly before the last committed block's
timestamp is rejected with `ExpiredTx`, whatever the signature
validity; and a transaction without an expiration timestamp is never
rejected with `ExpiredTx`. -/
theorem mempool_expiration_check (env : MempoolEnv) (tx : Tx)
    (k : MempoolTxType) :
    (∀ e : Int, tx.header.chain_id = env.chain_id →
      tx.header.expiration = some e →
      e < env.last_block_timestamp →
      (mempool_validate env (some tx) k).code =
        ErrorCodes.ExpiredTx.toNat) ∧
    (tx.header.expiration = none →
      (mempool_validate env (some tx) k).code ≠
        ErrorCodes.ExpiredTx.toNat) := by
  constructor
  · intro e hchain hex hlt
    simp [mempool_validate, hchain, hex, hlt]
  · intro hex
    simp only [mempool_validate, hex]
    split_ifs with h1 h2
    · simp [ErrorCodes.toNat]
    · simp [ErrorCodes.toNat]
    · rw [finalize_log_code]
      exact mempool_dispatch_code_ne_expired env tx

/-- Witness for C5: the transaction expiring at 50 is rejected as
expired when the last committed block time is 100, and the
no-expiration wrapper transaction is not rejected as expired. -/
theorem mempool_expiration_check_witness :
    (mempool_validate envW (some txExpired)
        MempoolTxType.NewTransaction).code = ErrorCodes.ExpiredTx.toNat ∧
    (mempool_validate envW (some txW)
        MempoolTxType.RecheckTransaction).code ≠
      ErrorCodes.ExpiredTx.toNat :=
  ⟨(mempool_expiration_check envW txExpired
      MempoolTxType.NewTransaction).1 50 rfl rfl (by decide),
   (mempool_expiration_check envW txW
      MempoolTxType.RecheckTransaction).2 rfl⟩

end NamadaShell

namespace NamadaShell

/-- Claim C1: a decoded wrapper transaction on the right chain,
unexpired and with a valid header signature, whose inner (raw-header)
hash or wrapper header hash is already present in committed
replay-protection storage, is rejected with `ReplayTx` for both the
new and the recheck mempool kinds, with the log naming the exact
colliding hash. -/
theorem mempool_replayed_wrapper_rejected (env : MempoolEnv) (tx : Tx)
    (w : WrapperData) (k1 k2 : MempoolTxType)
    (hw : tx.header.tx_type = TxKind.Wrapper w)
    (hchain : tx.header.chain_id = env.chain_id)
    (hexp : ∀ e : Int, tx.header.expiration = some e →
      ¬ env.last_block_timestamp > e)
    (hsig : env.validate_header tx = true)
    (hre : env.replay_has_key
        (env.hash_header (tx.update_header TxKind.Raw).header) = true ∨
      env.replay_has_key (env.hash_header tx.header) = true) :
    ((mempool_validate env (some tx) k1).code =
        ErrorCodes.ReplayTx.toNat ∧
     (mempool_validate env (some tx) k2).code =
        ErrorCodes.ReplayTx.toNat) ∧
    ((env.replay_has_key
        (env.hash_header (tx.update_header TxKind.Raw).header) = true ∧
      (mempool_validate env (some tx) k1).log =
        innerReplayLog
          (env.hash_header (tx.update_header TxKind.Raw).header) ∧
      (mempool_validate env (some tx) k2).log =
        innerReplayLog
          (env.hash_header (tx.update_header TxKind.Raw).header)) ∨
     (env.replay_has_key
        (env.hash_header (tx.update_header TxKind.Raw).header) = false ∧
      env.replay_has_key (env.hash_header tx.header) = true ∧
      (mempool_validate env (some tx) k1).log =
        wrapperReplayLog (env.hash_header tx.header) ∧
      (mempool_validate env (some tx) k2).log =
        wrapperReplayLog (env.hash_header tx.header))) := by
  have hstep : ∀ k : MempoolTxType,
      mempool_validate env (some tx) k =
        finalize_log (mempool_dispatch env tx) := fun k =>
    mempool_validate_to_dispatch env tx k hchain hexp hsig
  cases hinner : env.replay_has_key
      (env.hash_header (tx.update_header TxKind.Raw).header) with
  | true =>
    have hd : mempool_dispatch env tx =
        { code := ErrorCodes.ReplayTx.toNat,
          log := innerReplayLog
            (env.hash_header (tx.update_header TxKind.Raw).header),
          priority := 0 } := by
      unfold mempool_dispatch
      rw [hw]
      simp only [hinner, if_true]
    rw [hstep k1, hstep k2, hd]
    refine ⟨⟨?_, ?_⟩, Or.inl ⟨rfl, ?_, ?_⟩⟩ <;>
      simp [finalize_log, ErrorCodes.toNat]
  | false =>
    have hwrap : env.replay_has_key (env.hash_header tx.header) = true := by
      rcases hre with h | h
      · rw [hinner] at h; cases h
      · exact h
    have hd : mempool_dispatch env tx =
        { code := ErrorCodes.ReplayTx.toNat,
          log := wrapperReplayLog (env.hash_header tx.header),
          priority := 0 } := by
      unfold mempool_dispatch
      rw [hw]
      simp only [hinner, hwrap, if_true, if_false, Bool.false_eq_true]
    rw [hstep k1, hstep k2, hd]
    refine ⟨⟨?_, ?_⟩, Or.inr ⟨rfl, hwrap, ?_, ?_⟩⟩ <;>
      simp [finalize_log, ErrorCodes.toNat]

/-- Witness for C1: under the concrete environment, whose committed
replay records hold the raw-header hash 7 of the wrapper transaction,
both mempool kinds answer `ReplayTx` and the log names hash 7. -/
theorem mempool_replayed_wrapper_rejected_witness :
    ((mempool_validate envW (some txW)
        MempoolTxType.NewTransaction).code =
       ErrorCodes.ReplayTx.toNat ∧
     (mempool_validate envW (some txW)
        MempoolTxType.RecheckTransaction).code =
       ErrorCodes.ReplayTx.toNat) ∧
    ((envW.replay_has_key
        (envW.hash_header (txW.update_header TxKind.Raw).header) = true ∧
      (mempool_validate envW (some txW)
          MempoolTxType.NewTransaction).log =
        innerReplayLog
          (envW.hash_header (txW.update_header TxKind.Raw).header) ∧
      (mempool_validate envW (some txW)
          MempoolTxType.RecheckTransaction).log =
        innerReplayLog
          (envW.hash_header (txW.update_header TxKind.Raw).header)) ∨
     (envW.replay_has_key
        (envW.hash_header (txW.update_header TxKind.Raw).header) = false ∧
      envW.replay_has_key (envW.hash_header txW.header) = true ∧
      (mempool_validate envW (some txW)
          MempoolTxType.NewTransaction).log =
        wrapperReplayLog (envW.hash_header txW.header) ∧
      (mempool_validate envW (some txW)
          MempoolTxType.RecheckTransaction).log =
        wrapperReplayLog (envW.hash_header txW.header))) :=
  mempool_replayed_wrapper_rejected envW txW
    { pk := 1, fee_token := 0, pow_solution := none }
    MempoolTxType.NewTransaction MempoolTxType.RecheckTransaction
    rfl rfl (by intro e he; simp [txW] at he) rfl (Or.inl rfl)

end NamadaShell

namespace NamadaShell

/-! ### Replay-protection guard theorems -/

/-- Counterexample for C2: with committed storage already holding the
wrapper hash 2 and an empty overlay, `replay_protection_checks`
returns a `ReplayAttempt` error for the wrapper hash, yet the final
overlay holds the inner hash 1 — so the temporary overlay is not
unchanged on error. -/
theorem replay_protection_checks_overlay_counterexample :
    (replay_protection_checks hashC txW txW stC).1 =
      Except.error (replayAttemptWrapper 2) ∧
    stC.overlay = [] ∧
    (replay_protection_checks hashC txW txW stC).2.overlay = [1] :=
  ⟨rfl, rfl, rfl⟩

/-- Claim C2 (amended): `replay_protection_checks` checks the inner
(raw-header) hash first and, when absent, writes it into the overlay
before checking the wrapper hash; both hashes end up written exactly
when both were absent; on an inner-hash collision the error names the
inner hash and the overlay is unchanged; on a wrapper-hash collision
the error names the wrapper hash but the inner hash has already been
written into the overlay. -/
theorem replay_protection_checks_spec (hh : Header → Nat)
    (w t : Tx) (st : TempWlStorage) (innerH wrapperH : Nat)
    (hi : innerH = hh (w.update_header TxKind.Raw).header)
    (hwr : wrapperH = hh t.header) :
    (st.has_key innerH = true →
      replay_protection_checks hh w t st =
        (Except.error (replayAttemptInner innerH), st)) ∧
    (st.has_key innerH = false →
      (st.write innerH).has_key wrapperH = true →
      replay_protection_checks hh w t st =
        (Except.error (replayAttemptWrapper wrapperH),
         st.write innerH)) ∧
    (st.has_key innerH = false →
      (st.write innerH).has_key wrapperH = false →
      replay_protection_checks hh w t st =
        (Except.ok (), (st.write innerH).write wrapperH)) := by
  subst hi hwr
  refine ⟨fun h1 => ?_, fun h1 h2 => ?_, fun h1 h2 => ?_⟩ <;>
    simp [replay_protection_checks, h1] <;>
    simp [h2]

/-- Witness for the amended C2: the three branches evaluated on
concrete inputs — inner collision leaves the overlay `[1]` unchanged,
wrapper collision happens with the inner hash already written, and
the clean case writes both hashes. -/
theorem replay_protection_checks_spec_witness :
    (TempWlStorage.has_key { committed := fun _ => false, overlay := [1] } 1
        = true ∧
      replay_protection_checks hashC txW txW
          { committed := fun _ => false, overlay := [1] } =
        (Except.error (replayAttemptInner 1),
         { committed := fun _ => false, overlay := [1] })) ∧
    (stC.has_key 1 = false ∧ (stC.write 1).has_key 2 = true ∧
      replay_protection_checks hashC txW txW stC =
        (Except.error (replayAttemptWrapper 2), stC.write 1)) ∧
    (stEmptyC.has_key 1 = false ∧
      (stEmptyC.write 1).has_key 2 = false ∧
      replay_protection_checks hashC txW txW stEmptyC =
        (Except.ok (), (stEmptyC.write 1).write 2)) :=
  ⟨⟨rfl,
    (replay_protection_checks_spec hashC txW txW
      { committed := fun _ => false, overlay := [1] } 1 2 rfl rfl).1 rfl⟩,
   ⟨rfl, rfl,
    (replay_protection_checks_spec hashC txW txW stC 1 2 rfl rfl).2.1
      rfl rfl⟩,
   ⟨rfl, rfl,
    (replay_protection_checks_spec hashC txW txW stEmptyC 1 2 rfl
      rfl).2.2 rfl rfl⟩⟩

end NamadaShell

namespace NamadaShell

/-! ### Evidence-slashing theorems -/

/-- Claim C6: after `record_slashes_from_evidence` the pending
Byzantine-evidence list is empty; the slash calls made are exactly one
pass of `process_evidence` over the drained list (each item
contributing at most one slash); and running the function again on the
resulting state changes nothing, so an item drained in one finalized
block is absent from, and never re-slashed in, the next. -/
theorem record_slashes_drain_and_idempotent (env env2 : SlashEnv)
    (st : ShellSlashState) :
    (record_slashes_from_evidence env st).byzantine_validators = [] ∧
    (record_slashes_from_evidence env st).slashes =
      st.slashes ++ st.byzantine_validators.filterMap
        (process_evidence env st.current_epoch) ∧
    record_slashes_from_evidence env2
        (record_slashes_from_evidence env st) =
      record_slashes_from_evidence env st := by
  rcases st with ⟨byz, cur, slashes⟩
  cases byz with
  | nil => simp [record_slashes_from_evidence]
  | cons e es => simp [record_slashes_from_evidence]

/-- Claim C7: an evidence item whose height does not resolve to an
epoch, or whose fault-type code is unrecognised, or whose epoch falls
in the already-closed slashing window, or whose validator identity
does not resolve, produces no slash call; the surrounding loop still
drains the list and processes the remaining items, returning normally
(the block is not failed). -/
theorem evidence_discarded_nonfatally (env : SlashEnv) (cur : Nat)
    (ev : Evidence) (pre post : List Evidence)
    (old : List SlashRecord)
    (hdisc :
      (ev.height < 0 ∨ env.pred_epochs ev.height.toNat = none) ∨
      EvidenceType.from_i32 ev.type_code = none ∨
      (∀ ep : Nat, env.pred_epochs ev.height.toNat = some ep →
        ep + env.pos_params.slash_processing_epoch_offset
          - env.pos_params.cubic_slashing_window_length ≤ cur) ∨
      ev.validator = none ∨
      (∀ raw : Nat, ev.validator = some raw →
        env.find_validator_by_raw_hash raw = none)) :
    process_evidence env cur ev = none ∧
    record_slashes_from_evidence env
        { byzantine_validators := pre ++ ev :: post,
          current_epoch := cur, slashes := old } =
      { byzantine_validators := [], current_epoch := cur,
        slashes := old ++ (pre.filterMap (process_evidence env cur) ++
          post.filterMap (process_evidence env cur)) } := by
  have hnone : process_evidence env cur ev = none := by
    by_cases hneg : ev.height < 0
    · simp [process_evidence, hneg]
    · cases hep : env.pred_epochs ev.height.toNat with
      | none => simp [process_evidence, hneg, hep]
      | some ep =>
        by_cases hwin : ep + env.pos_params.slash_processing_epoch_offset
            - env.pos_params.cubic_slashing_window_length ≤ cur
        · simp [process_evidence, hneg, hep, hwin]
        · cases h32 : EvidenceType.from_i32 ev.type_code with
          | none => simp [process_evidence, hneg, hep, hwin, h32]
          | some et =>
            cases hval : ev.validator with
            | none =>
              cases et <;>
                simp [process_evidence, hneg, hep, hwin, h32, hval]
            | some raw =>
              cases hfind : env.find_validator_by_raw_hash raw with
              | none =>
                cases et <;>
                  simp [process_evidence, hneg, hep, hwin, h32, hval,
                    hfind]
              | some v =>
                cases et with
                | Unknown =>
                  simp [process_evidence, hneg, hep, hwin, h32]
                | DuplicateVote =>
                  rcases hdisc with (h | h) | h | h | h | h
                  · exact absurd h hneg
                  · rw [hep] at h; cases h
                  · rw [h32] at h; cases h
                  · exact absurd (h ep hep) hwin
                  · rw [hval] at h; cases h
                  · have hc := h raw hval
                    rw [hfind] at hc; cases hc
                | LightClientAttack =>
                  rcases hdisc with (h | h) | h | h | h | h
                  · exact absurd h hneg
                  · rw [hep] at h; cases h
                  · rw [h32] at h; cases h
                  · exact absurd (h ep hep) hwin
                  · rw [hval] at h; cases h
                  · have hc := h raw hval
                    rw [hfind] at hc; cases hc
  refine ⟨hnone, ?_⟩
  simp [record_slashes_from_evidence, List.filterMap_append, hnone]

/-- Witness for C7: the concrete evidence item resolves to epoch 4
with an open window and a recognised duplicate-vote code, but its
validator raw hash resolves to no validator, so no slash call is made
and the drained state is returned. -/
theorem evidence_discarded_nonfatally_witness :
    process_evidence slashEnvW 2 evW = none ∧
    record_slashes_from_evidence slashEnvW
        { byzantine_validators := [] ++ evW :: [],
          current_epoch := 2, slashes := [] } =
      { byzantine_validators := [], current_epoch := 2,
        slashes := [] ++
          (List.filterMap (process_evidence slashEnvW 2) [] ++
           List.filterMap (process_evidence slashEnvW 2) []) } :=
  evidence_discarded_nonfatally slashEnvW 2 evW [] [] []
    (Or.inr (Or.inr (Or.inr (Or.inr (fun raw _ => rfl)))))

end NamadaShell

namespace NamadaShell

/-! ### Ethereum receiver theorems -/

/-- Helper: membership in a `btree_insert`. -/
theorem mem_btree_insert (a x : Nat) (l : List Nat) :
    a ∈ btree_insert x l ↔ a = x ∨ a ∈ l := by
  induction l with
  | nil => simp [btree_insert]
  | cons y ys ih =>
    unfold btree_insert
    split_ifs with h1 h2
    · simp
    · subst h2
      simp [List.mem_cons]
    · simp [List.mem_cons, ih]
      tauto

/-- Helper: `btree_insert` preserves strict sortedness. -/
theorem sorted_btree_insert (x : Nat) (l : List Nat)
    (h : l.Sorted (· < ·)) : (btree_insert x l).Sorted (· < ·) := by
  induction l with
  | nil => simp [btree_insert]
  | cons y ys ih =>
    rw [List.sorted_cons] at h
    obtain ⟨hy, hys⟩ := h
    unfold btree_insert
    split_ifs with h1 h2
    · rw [List.sorted_cons]
      refine ⟨?_, List.sorted_cons.mpr ⟨hy, hys⟩⟩
      intro b hb
      rcases List.mem_cons.mp hb with rfl | hb
      · exact h1
      · exact h1.trans (hy b hb)
    · exact List.sorted_cons.mpr ⟨hy, hys⟩
    · rw [List.sorted_cons]
      refine ⟨?_, ih hys⟩
      intro b hb
      rcases (mem_btree_insert b x ys).mp hb with rfl | hb
      · omega
      · exact hy b hb

/-- Helper: draining a channel into a sorted queue keeps it sorted. -/
theorem sorted_foldl_insert (ch : List Nat) (q : List Nat)
    (h : q.Sorted (· < ·)) :
    (ch.foldl (fun q e => btree_insert e q) q).Sorted (· < ·) := by
  induction ch generalizing q with
  | nil => simpa
  | cons e es ih => exact ih _ (sorted_btree_insert e q h)

/-- Helper: membership after draining a channel into the queue. -/
theorem mem_foldl_insert (ch : List Nat) (q : List Nat) (a : Nat) :
    a ∈ ch.foldl (fun q e => btree_insert e q) q ↔ a ∈ ch ∨ a ∈ q := by
  induction ch generalizing q with
  | nil => simp
  | cons e es ih =>
    simp only [List.foldl_cons, ih, mem_btree_insert, List.mem_cons]
    tauto

/-- Helper: every operation preserves sortedness of the queue. -/
theorem sorted_apply_receiver_op (r : EthereumReceiver)
    (op : ReceiverOp) (h : r.queue.Sorted (· < ·)) :
    (apply_receiver_op r op).queue.Sorted (· < ·) := by
  cases op with
  | deliver e => exact h
  | fill => exact sorted_foldl_insert r.channel r.queue h
  | remove e =>
    exact h.sublist (List.erase_sublist e r.queue)

/-- Helper: after any operation sequence from a fresh receiver the
queue is sorted. -/
theorem run_receiver_sorted_aux (ops : List ReceiverOp)
    (r : EthereumReceiver) (h : r.queue.Sorted (· < ·)) :
    (ops.foldl apply_receiver_op r).queue.Sorted (· < ·) := by
  induction ops generalizing r with
  | nil => simpa
  | cons op ops ih => exact ih _ (sorted_apply_receiver_op r op h)

/-- Helper: delivering a list of events only appends to the channel. -/
theorem foldl_deliver_channel (l : List Nat) (r : EthereumReceiver) :
    (l.map ReceiverOp.deliver).foldl apply_receiver_op r =
      { r with channel := r.channel ++ l } := by
  induction l generalizing r with
  | nil => simp
  | cons e es ih =>
    simp only [List.map_cons, List.foldl_cons, apply_receiver_op, ih]
    simp

/-- Helper: the queue after delivering a list and filling once. -/
theorem run_deliver_fill (l : List Nat) :
    (run_receiver (l.map ReceiverOp.deliver ++
        [ReceiverOp.fill])).get_events =
      l.foldl (fun q e => btree_insert e q) [] := by
  unfold run_receiver
  rw [List.foldl_append, foldl_deliver_channel]
  simp [apply_receiver_op, EthereumReceiver.fill_queue,
    EthereumReceiver.get_events, EthereumReceiver.new]

/-- Claim C8: the queue reached by any interleaving of deliveries,
`fill_queue` and `remove_event` calls is sorted by event identity and
duplicate-free, and two receivers fed the same multiset of events in
different arrival orders return identical `get_events` lists. -/
theorem ethereum_receiver_sorted_dedup (ops : List ReceiverOp)
    (l1 l2 : List Nat) (hperm : l1.Perm l2) :
    (run_receiver ops).get_events.Sorted (· < ·) ∧
    (run_receiver ops).get_events.Nodup ∧
    (run_receiver (l1.map ReceiverOp.deliver ++
        [ReceiverOp.fill])).get_events =
      (run_receiver (l2.map ReceiverOp.deliver ++
        [ReceiverOp.fill])).get_events := by
  have hsorted : (run_receiver ops).get_events.Sorted (· < ·) :=
    run_receiver_sorted_aux ops (EthereumReceiver.new []) (by
      simp [EthereumReceiver.new])
  refine ⟨hsorted, hsorted.nodup, ?_⟩
  rw [run_deliver_fill, run_deliver_fill]
  have s1 := sorted_foldl_insert l1 [] (by simp)
  have s2 := sorted_foldl_insert l2 [] (by simp)
  refine List.eq_of_perm_of_sorted ?_ s1 s2
  rw [List.perm_ext_iff_of_nodup s1.nodup s2.nodup]
  intro a
  simp only [mem_foldl_insert, List.not_mem_nil, or_false]
  exact ⟨fun h => hperm.mem_iff.mp h, fun h => hperm.mem_iff.mpr h⟩

/-- Witness for C8: a concrete interleaving yields the sorted
duplicate-free queue, and the two permuted delivery orders of
the multiset containing 3, 1 and 2 converge to the same list. -/
theorem ethereum_receiver_sorted_dedup_witness :
    List.Perm [3, 1, 2] [2, 3, 1] ∧
    (run_receiver opsW).get_events.Sorted (· < ·) ∧
    (run_receiver opsW).get_events.Nodup ∧
    (run_receiver ([3, 1, 2].map ReceiverOp.deliver ++
        [ReceiverOp.fill])).get_events =
      (run_receiver ([2, 3, 1].map ReceiverOp.deliver ++
        [ReceiverOp.fill])).get_events := by
  have h := ethereum_receiver_sorted_dedup opsW [3, 1, 2] [2, 3, 1]
    (by decide)
  exact ⟨by decide, h.1, h.2.1, h.2.2⟩

end NamadaShell

namespace NamadaShell

/-! ### Oracle configuration push theorems -/

/-- Claim C9: for a validator shell with an oracle channel, whenever
`update_eth_oracle` reaches the configuration push and the control
channel is full or closed, the outcome is a process abort (`fatal`),
never a silent drop or an error return; and no push is attempted when
the bridge-activation key is absent from storage or the bridge is
disabled — those cases return early. -/
theorem update_eth_oracle_abort_and_gating (env : OracleEnv)
    (hch : env.has_oracle_channel = true) :
    (∀ cfg : EthereumBridgeConfig,
      env.has_active_key = true → env.bridge_active = true →
      env.bridge_config = some cfg →
      (env.ethereum_height ≠ none ∨
        env.eth_start_height_storage ≠ none) →
      (env.control_channel = ChannelState.Full →
        update_eth_oracle env = OracleUpdateOutcome.fatal
          "The Ethereum oracle communication channel is full!") ∧
      (env.control_channel = ChannelState.Closed →
        update_eth_oracle env = OracleUpdateOutcome.fatal
          "The Ethereum oracle can no longer be communicated with")) ∧
    (env.has_active_key = false →
      update_eth_oracle env =
        OracleUpdateOutcome.storage_uninitialized) ∧
    (env.has_active_key = true → env.bridge_active = false →
      update_eth_oracle env = OracleUpdateOutcome.bridge_disabled) := by
  refine ⟨?_, ?_, ?_⟩
  · intro cfg hkey hact hcfg hstart
    cases hh : env.ethereum_height with
    | some h =>
      constructor <;> intro hc <;>
        simp [update_eth_oracle, hch, hkey, hact, hcfg, hh, hc]
    | none =>
      cases hs : env.eth_start_height_storage with
      | some s =>
        constructor <;> intro hc <;>
          simp [update_eth_oracle, hch, hkey, hact, hcfg, hh, hs, hc]
      | none =>
        rcases hstart with h | h
        · exact absurd hh h
        · exact absurd hs h
  · intro hkey
    simp [update_eth_oracle, hch, hkey]
  · intro hkey hact
    simp [update_eth_oracle, hch, hkey, hact]

/-- Witness for C9: with the bridge active and configured and a full
control channel the concrete environment aborts, and with the
activation key absent the push is skipped. -/
theorem update_eth_oracle_abort_and_gating_witness :
    update_eth_oracle oracleEnvFullW = OracleUpdateOutcome.fatal
      "The Ethereum oracle communication channel is full!" ∧
    update_eth_oracle oracleEnvNoKeyW =
      OracleUpdateOutcome.storage_uninitialized :=
  ⟨((update_eth_oracle_abort_and_gating oracleEnvFullW rfl).1
      { min_confirmations := 3,
        contracts := { bridge := 11, governance := 12 } }
      rfl rfl rfl (Or.inl (by decide))).1 rfl,
   (update_eth_oracle_abort_and_gating oracleEnvNoKeyW rfl).2.1 rfl⟩

end NamadaShell
